import Mathlib

/-!
The Book resource of node-book-service, `src/app.js`.

`src/app.js` is an Express router of six handlers over one Mongoose model, `Book`.
Every handler makes one Mongoose call inside `try`/`catch` and maps the outcome to an
HTTP status.  The development below embeds

* the schema `bookSchema` (lines 38-53): its types, `required`, `min`, the custom
  validator of `publishedYear` and the two defaults;
* the static `findByGenre` (lines 61-63);
* the six route handlers (lines 78-144), each with its own `catch` status.

The collection is a list of documents in insertion order.  What a handler reads from
its surroundings is made explicit in `Env`: the calendar year `new Date().getFullYear()`
returns, the ObjectId the `Book` constructor generates, and whether the driver call of
this request fails (and with which message).

Request bodies are JSON objects made of the fields of the schema, each one absent or
present with a value of the type the schema declares; `publishedYear` ranges over the
integers.  `PUT /books/:id` hands `req.body` to `findByIdAndUpdate` as it is, so the body
of an update may also carry a MongoDB update operator: `$inc` of `publishedYear`, the one
numeric path, is embedded.  The Mongoose calls are embedded with the behaviour the
handlers rely on: document validation on `save`, update validators
(`runValidators: true`) on the paths that the update sets, the cast of the `:id`
parameter to an ObjectId, and the unique index on `_id`.
-/

namespace BookService

/-! ## Data model -/

/-- A MongoDB ObjectId, twelve bytes, held as the number its hexadecimal text spells. -/
abbrev ObjectId := Nat

/-- A document of the `books` collection, shaped by `bookSchema` (lines 38-53).
`title` and `author` are optional here because the constructor builds the document
before validation decides whether they are there. -/
structure Book where
  _id : ObjectId
  title : Option String
  author : Option String
  publishedYear : Option Int
  genres : List String
  isAvailable : Bool
  deriving DecidableEq, Repr

/-- The schema fields of a request body, every one absent or given.  This is the body of
`POST /books`: the constructor `new Book(req.body)` keeps the keys that are paths of the
schema and drops every other key. -/
structure Fields where
  title : Option String
  author : Option String
  publishedYear : Option Int
  genres : Option (List String)
  isAvailable : Option Bool
  deriving DecidableEq, Repr

/-- The body of `PUT /books/:id`, which line 113 passes unfiltered as the update of
`findByIdAndUpdate`: the schema fields it gives, which Mongoose gathers under `$set`,
and the amount `n` of `$inc: { publishedYear: n }` when the body carries that update
operator. -/
structure UpdateBody where
  fields : Fields
  inc : Option Int
  deriving DecidableEq, Repr

/-- The collection `books`, in insertion order. -/
abbrev Store := List Book

/-- What one request reads from outside the collection. -/
structure Env where
  /-- The value of `new Date().getFullYear()` while the request is validated. -/
  year : Int
  /-- The ObjectId the `Book` constructor generates for a new document. -/
  newId : ObjectId
  /-- When `some m`, the driver call of this request throws an error of message `m`. -/
  fault : Option String
  deriving DecidableEq, Repr

/-! ## Errors and responses -/

/-- One failed validator of one path. -/
inductive ValidatorError where
  | required (path : String)
  | min (path : String) (value : Int) (bound : Int)
  | user (path : String) (message : String)
  deriving DecidableEq, Repr

/-- The errors a Mongoose call of the handlers can throw. -/
inductive MongooseError where
  /-- ValidationError of `save` (header `Book validation failed`) or of the update
  validators (header `Validation failed`). -/
  | validation (header : String) (errors : List ValidatorError)
  /-- CastError: the `:id` parameter is not the text of an ObjectId. -/
  | cast (value : String)
  /-- The unique index on `_id` refused an insert. -/
  | duplicateKey (id : ObjectId)
  /-- The server refused an update that names one path under two operators. -/
  | conflict (path : String)
  /-- A failure raised by the driver (connectivity loss and the like). -/
  | driver (message : String)
  deriving DecidableEq, Repr

/-- The body handed to `res.json`. -/
inductive Body where
  | book (b : Book)
  | books (bs : List Book)
  | message (text : String)
  | error (text : String)
  deriving DecidableEq, Repr

/-- An HTTP response: `res.status(n).json(body)`; `res.json(body)` alone answers 200. -/
structure Response where
  status : Nat
  body : Body
  deriving DecidableEq, Repr

/-- The `message` option of the `publishedYear` validator (line 48). -/
def publishedYearMessage (year : Int) (value : Int) : String :=
  s!"{value} exceeds the current year ({year})"

/-- The message of one validator error, after Mongoose's default templates; the text of
a number is exact for the integers a JSON number holds exactly. -/
def ValidatorError.message : ValidatorError → String
  | .required path => "Path `" ++ path ++ "` is required."
  | .min path value bound =>
      "Path `" ++ path ++ "` (" ++ toString value ++
        ") is less than minimum allowed value (" ++ toString bound ++ ")."
  | .user _ message => message

/-- The path a validator error belongs to. -/
def ValidatorError.path : ValidatorError → String
  | .required path => path
  | .min path _ _ => path
  | .user path _ => path

/-- The text of `err.message`.  A ValidationError lists its paths in the order of the
schema here; Mongoose lists them in the order in which its validators ran, so the text
is exact when one path fails and may differ in the order of the paths otherwise. -/
def MongooseError.message : MongooseError → String
  | .validation header errors =>
      header ++ ": " ++ ", ".intercalate (errors.map fun e => e.path ++ ": " ++ e.message)
  | .cast value =>
      "Cast to ObjectId failed for value \"" ++ value ++
        "\" (type string) at path \"_id\" for model \"Book\""
  | .duplicateKey id => "E11000 duplicate key error, dup key: _id " ++ toString id
  | .conflict path =>
      "Updating the path '" ++ path ++ "' would create a conflict at '" ++ path ++ "'"
  | .driver message => message

/-! ## The schema: casts, defaults and validators -/

/-- The value of one hexadecimal digit: `0`-`9` are the characters 48 to 57, `a`-`f`
the characters 97 to 102 and `A`-`F` the characters 65 to 70. -/
def hexDigit (c : Char) : Option Nat :=
  if 48 ≤ c.toNat ∧ c.toNat ≤ 57 then some (c.toNat - 48)
  else if 97 ≤ c.toNat ∧ c.toNat ≤ 102 then some (c.toNat - 87)
  else if 65 ≤ c.toNat ∧ c.toNat ≤ 70 then some (c.toNat - 55)
  else none

/-- The number a list of hexadecimal digits spells after the digits `acc` read so far. -/
def hexValue (acc : Nat) : List Char → Option Nat
  | [] => some acc
  | c :: cs =>
    match hexDigit c with
    | some d => hexValue (16 * acc + d) cs
    | none => none

/-- The cast of the `:id` route parameter to an ObjectId: a text of 24 hexadecimal
characters, in either case, is well formed; of anything else Mongoose makes a
CastError. -/
def castObjectId (id : String) : Option ObjectId :=
  if id.length = 24 then hexValue 0 id.toList else none

/-- The `required: true` of a String path: the value is there and is not empty. -/
def checkRequired (value : Option String) : Bool :=
  match value with
  | some s => decide (s ≠ "")
  | none => false

/-- The validators of a required String path (`title`, `author`). -/
def validateRequired (path : String) (value : Option String) : List ValidatorError :=
  if checkRequired value then [] else [.required path]

/-- The `validator` function of `publishedYear` (lines 45-47):
`value <= new Date().getFullYear()`. -/
def publishedYearValidator (year : Int) (value : Int) : Bool :=
  decide (value ≤ year)

/-- The validators of `publishedYear` (lines 41-50): none runs on an absent value;
on a value `min: 1900` runs first, then the custom validator. -/
def validatePublishedYear (year : Int) (value : Option Int) : List ValidatorError :=
  match value with
  | none => []
  | some v =>
    if v < 1900 then [.min "publishedYear" v 1900]
    else if publishedYearValidator year v then []
    else [.user "publishedYear" (publishedYearMessage year v)]

/-- Whether the `publishedYear` validation accepts a value. -/
def acceptsPublishedYear (year : Int) (value : Option Int) : Bool :=
  (validatePublishedYear year value).isEmpty

/-- Document validation, run by `save`: every path of the schema that has validators. -/
def Book.validate (year : Int) (doc : Book) : List ValidatorError :=
  validateRequired "title" doc.title ++ validateRequired "author" doc.author ++
    validatePublishedYear year doc.publishedYear

/-- Update validators (`runValidators: true`): only the paths the update sets; they do
not run on `$inc`. -/
def updateValidators (year : Int) (update : Fields) : List ValidatorError :=
  (match update.title with
    | some t => validateRequired "title" (some t)
    | none => []) ++
  (match update.author with
    | some a => validateRequired "author" (some a)
    | none => []) ++
  validatePublishedYear year update.publishedYear

/-- The document `new Book(req.body)` builds (line 80): a generated `_id`, the fields
of the body, and the defaults of `genres` and `isAvailable` (lines 51-52). -/
def newBook (env : Env) (body : Fields) : Book where
  _id := env.newId
  title := body.title
  author := body.author
  publishedYear := body.publishedYear
  genres := body.genres.getD []
  isAvailable := body.isAvailable.getD true

/-- The effect of `$set` with the fields of the update on one document. -/
def applyUpdate (update : Fields) (doc : Book) : Book where
  _id := doc._id
  title := match update.title with
    | some t => some t
    | none => doc.title
  author := match update.author with
    | some a => some a
    | none => doc.author
  publishedYear := match update.publishedYear with
    | some y => some y
    | none => doc.publishedYear
  genres := update.genres.getD doc.genres
  isAvailable := update.isAvailable.getD doc.isAvailable

/-- The effect of `$inc: { publishedYear: n }` on one document: the field grows by `n`,
and a document without the field gets it with the value `n`. -/
def applyInc (inc : Option Int) (doc : Book) : Book :=
  match inc with
  | none => doc
  | some n =>
    ⟨doc._id, doc.title, doc.author, some (doc.publishedYear.getD 0 + n), doc.genres,
      doc.isAvailable⟩

/-- The document after the whole update: `$set` of the given fields, then `$inc`. -/
def applyOperators (update : UpdateBody) (doc : Book) : Book :=
  applyInc update.inc (applyUpdate update.fields doc)

/-- Whether the update names `publishedYear` under both `$set` and `$inc`, which the
server refuses. -/
def conflicting (update : UpdateBody) : Bool :=
  update.fields.publishedYear.isSome && update.inc.isSome

/-- The instance method `getBookInfo` (lines 56-58). -/
def getBookInfo (doc : Book) : String :=
  "The book '" ++ doc.title.getD "undefined" ++ "' is written by " ++
    doc.author.getD "undefined" ++ "."

/-! ## The Mongoose calls of the handlers -/

/-- Replace the first document of the given `_id` by its image under `f`. -/
def modifyFirst (oid : ObjectId) (f : Book → Book) : Store → Store
  | [] => []
  | b :: bs => if b._id = oid then f b :: bs else b :: modifyFirst oid f bs

/-- Remove the first document of the given `_id`. -/
def removeFirst (oid : ObjectId) : Store → Store
  | [] => []
  | b :: bs => if b._id = oid then bs else b :: removeFirst oid bs

/-- The first document of the given `_id`. -/
def lookup (oid : ObjectId) : Store → Option Book
  | [] => none
  | b :: bs => if b._id = oid then some b else lookup oid bs

/-- The filter of `find({ genres: genre })`: some element of the array equals `genre`. -/
def hasGenre (genre : String) (doc : Book) : Bool :=
  doc.genres.contains genre

/-- `book.save()` (line 81): validate the document, then insert it. -/
def save (env : Env) (doc : Book) (s : Store) : Except MongooseError (Book × Store) :=
  match doc.validate env.year with
  | e :: es => .error (.validation "Book validation failed" (e :: es))
  | [] =>
    match env.fault with
    | some m => .error (.driver m)
    | none =>
      match lookup doc._id s with
      | some _ => .error (.duplicateKey doc._id)
      | none => .ok (doc, s ++ [doc])

/-- `Book.find()` (line 90). -/
def find (env : Env) (s : Store) : Except MongooseError (List Book) :=
  match env.fault with
  | some m => .error (.driver m)
  | none => .ok s

/-- `Book.findById(id)` (line 99): cast the id, then look the document up. -/
def findById (env : Env) (id : String) (s : Store) : Except MongooseError (Option Book) :=
  match castObjectId id with
  | none => .error (.cast id)
  | some oid =>
    match env.fault with
    | some m => .error (.driver m)
    | none => .ok (lookup oid s)

/-- `Book.findByIdAndUpdate(id, update, { new: true, runValidators: true })`
(lines 111-115): cast the id, run the update validators on the fields the update sets,
then have the server apply the update to the document and return it as it is after the
update. -/
def findByIdAndUpdate (env : Env) (id : String) (update : UpdateBody) (s : Store) :
    Except MongooseError (Option Book × Store) :=
  match castObjectId id with
  | none => .error (.cast id)
  | some oid =>
    match updateValidators env.year update.fields with
    | e :: es => .error (.validation "Validation failed" (e :: es))
    | [] =>
      match env.fault with
      | some m => .error (.driver m)
      | none =>
        if conflicting update then .error (.conflict "publishedYear")
        else
          match lookup oid s with
          | none => .ok (none, s)
          | some b =>
            .ok (some (applyOperators update b), modifyFirst oid (applyOperators update) s)

/-- `Book.findByIdAndDelete(id)` (line 127): cast the id, then remove the document and
return it. -/
def findByIdAndDelete (env : Env) (id : String) (s : Store) :
    Except MongooseError (Option Book × Store) :=
  match castObjectId id with
  | none => .error (.cast id)
  | some oid =>
    match env.fault with
    | some m => .error (.driver m)
    | none =>
      match lookup oid s with
      | none => .ok (none, s)
      | some b => .ok (some b, removeFirst oid s)

/-- The static `findByGenre` (lines 61-63): `this.find({ genres: genre })`. -/
def findByGenre (env : Env) (genre : String) (s : Store) : Except MongooseError (List Book) :=
  match env.fault with
  | some m => .error (.driver m)
  | none => .ok (s.filter (hasGenre genre))

/-! ## The route handlers -/

/-- The fixed body of every 404. -/
def notFound : Response :=
  ⟨404, .message "Book not found."⟩

/-- Handler of `POST /books` (lines 78-86). -/
def postBooks (env : Env) (body : Fields) (s : Store) : Response × Store :=
  match save env (newBook env body) s with
  | .ok (savedBook, s') => (⟨201, .book savedBook⟩, s')
  | .error err => (⟨400, .error err.message⟩, s)

/-- Handler of `GET /books` (lines 88-95). -/
def getBooks (env : Env) (s : Store) : Response × Store :=
  match find env s with
  | .ok books => (⟨200, .books books⟩, s)
  | .error err => (⟨500, .error err.message⟩, s)

/-- Handler of `GET /books/:id` (lines 97-107). -/
def getBookById (env : Env) (id : String) (s : Store) : Response × Store :=
  match findById env id s with
  | .ok none => (notFound, s)
  | .ok (some book) => (⟨200, .book book⟩, s)
  | .error err => (⟨400, .error err.message⟩, s)

/-- Handler of `PUT /books/:id` (lines 109-123). -/
def putBook (env : Env) (id : String) (body : UpdateBody) (s : Store) : Response × Store :=
  match findByIdAndUpdate env id body s with
  | .ok (none, _) => (notFound, s)
  | .ok (some updatedBook, s') => (⟨200, .book updatedBook⟩, s')
  | .error err => (⟨400, .error err.message⟩, s)

/-- Handler of `DELETE /books/:id` (lines 125-135). -/
def deleteBook (env : Env) (id : String) (s : Store) : Response × Store :=
  match findByIdAndDelete env id s with
  | .ok (none, _) => (notFound, s)
  | .ok (some deletedBook, s') =>
      (⟨200, .message ("Book '" ++ deletedBook.title.getD "undefined" ++
        "' deleted successfully.")⟩, s')
  | .error err => (⟨400, .error err.message⟩, s)

/-- Handler of `GET /books/genre/:genre` (lines 137-144). -/
def getBooksByGenre (env : Env) (genre : String) (s : Store) : Response × Store :=
  match findByGenre env genre s with
  | .ok books => (⟨200, .books books⟩, s)
  | .error err => (⟨400, .error err.message⟩, s)


/-! ## Sequences of write requests -/

/-- A request that writes: create, update or delete. -/
inductive Request where
  | create (body : Fields)
  | update (id : String) (body : UpdateBody)
  | delete (id : String)
  deriving DecidableEq, Repr

/-- A write request and what its handler reads from outside while it runs. -/
structure Event where
  env : Env
  req : Request
  deriving DecidableEq, Repr

/-- The router on one write request. -/
def step (e : Event) (s : Store) : Response × Store :=
  match e.req with
  | .create body => postBooks e.env body s
  | .update id body => putBook e.env id body s
  | .delete id => deleteBook e.env id s

/-- The collection after a sequence of write requests, handled one after the other. -/
def run : List Event → Store → Store
  | [], s => s
  | e :: es, s => run es (step e s).2

/-- The event asks to write `publishedYear := y` into the record of id `oid`. -/
def Event.setsYear (e : Event) (oid : ObjectId) (y : Int) : Prop :=
  match e.req with
  | .create body => e.env.newId = oid ∧ body.publishedYear = some y
  | .update id body => castObjectId id = some oid ∧ body.fields.publishedYear = some y
  | .delete _ => False

/-- The body of the event is made of schema fields only: it carries no update operator. -/
def Event.fieldsOnly (e : Event) : Bool :=
  match e.req with
  | .create _ => true
  | .update _ body => body.inc.isNone
  | .delete _ => true

/-- The constraints of the data model on a Book (section 3 of the specification), the
bound of `publishedYear` taken at the calendar year `year`: `title` and `author` are
there and not empty, and `publishedYear`, if set, is at least 1900 and at most `year`. -/
def SatisfiesConstraints (year : Int) (b : Book) : Prop :=
  (∃ t, b.title = some t ∧ t ≠ "") ∧ (∃ a, b.author = some a ∧ a ≠ "") ∧
    ∀ y, b.publishedYear = some y → 1900 ≤ y ∧ y ≤ year

/-- A Book is well kept by a history of events: `title` and `author` are there and not
empty, and `publishedYear`, if set, is at least 1900 and was written to this record by
an event of the history whose calendar year it does not exceed. -/
def WellKept (history : List Event) (b : Book) : Prop :=
  (∃ t, b.title = some t ∧ t ≠ "") ∧ (∃ a, b.author = some a ∧ a ≠ "") ∧
    ∀ y, b.publishedYear = some y →
      1900 ≤ y ∧ ∃ e ∈ history, e.setsYear b._id y ∧ y ≤ e.env.year

/-! ## Shared lemmas -/

theorem validatePublishedYear_eq_nil_iff (c y : Int) :
    validatePublishedYear c (some y) = [] ↔ 1900 ≤ y ∧ y ≤ c := by
  unfold validatePublishedYear publishedYearValidator
  by_cases h1 : y < 1900
  · simp only [h1, if_true]
    constructor
    · intro h; cases h
    · intro h; omega
  · by_cases h2 : y ≤ c
    · simp [h1, h2]; omega
    · simp [h1, h2]

theorem validateRequired_eq_nil_iff (path : String) (v : Option String) :
    validateRequired path v = [] ↔ checkRequired v = true := by
  unfold validateRequired
  by_cases h : checkRequired v = true <;> simp [h]

theorem checkRequired_iff (v : Option String) :
    checkRequired v = true ↔ ∃ t, v = some t ∧ t ≠ "" := by
  cases v <;> simp [checkRequired]

theorem validate_eq_nil_iff (c : Int) (doc : Book) :
    doc.validate c = [] ↔
      checkRequired doc.title = true ∧ checkRequired doc.author = true ∧
        validatePublishedYear c doc.publishedYear = [] := by
  simp [Book.validate, validateRequired_eq_nil_iff, and_assoc]

theorem postBooks_of_invalid (env : Env) (body : Fields) (s : Store)
    (h : (newBook env body).validate env.year ≠ []) :
    postBooks env body s =
      (⟨400, .error (MongooseError.validation "Book validation failed"
        ((newBook env body).validate env.year)).message⟩, s) := by
  unfold postBooks save
  cases hv : (newBook env body).validate env.year with
  | nil => exact absurd hv h
  | cons e es => rfl

theorem postBooks_of_valid (env : Env) (body : Fields) (s : Store)
    (hv : (newBook env body).validate env.year = []) (hf : env.fault = none)
    (hn : lookup env.newId s = none) :
    postBooks env body s = (⟨201, .book (newBook env body)⟩, s ++ [newBook env body]) := by
  have hn' : lookup (newBook env body)._id s = none := hn
  simp [postBooks, save, hv, hf, hn']

theorem postBooks_rejects (env : Env) (body : Fields) (s : Store)
    (h : (newBook env body).validate env.year ≠ []) :
    ∃ e es, postBooks env body s =
      (⟨400, .error (MongooseError.validation "Book validation failed" (e :: es)).message⟩,
        s) := by
  cases hv : (newBook env body).validate env.year with
  | nil => exact absurd hv h
  | cons e es => exact ⟨e, es, by rw [postBooks_of_invalid env body s h, hv]⟩

/-! ## Validation on create -/

/-- C1: the `publishedYear` validation accepts an integer year `y` exactly when
`1900 ≤ y` and `y` is at most the calendar year read at validation time; an absent
`publishedYear` is accepted; `POST /books` with the year after the current one answers
400 and stores nothing; with the current year (title and author given, the driver up,
the generated id new) it answers 201, and so it does with no `publishedYear` at all. -/
theorem publishedYear_accepted_iff_in_range (y : Int) (env : Env) (body : Fields)
    (s : Store) :
    (acceptsPublishedYear env.year (some y) = true ↔ 1900 ≤ y ∧ y ≤ env.year) ∧
    acceptsPublishedYear env.year none = true ∧
    (body.publishedYear = some (env.year + 1) →
      ∃ e es, postBooks env body s =
        (⟨400, .error (MongooseError.validation "Book validation failed" (e :: es)).message⟩,
          s)) ∧
    (checkRequired body.title = true → checkRequired body.author = true →
      env.fault = none → lookup env.newId s = none →
      (body.publishedYear = some env.year ∧ 1900 ≤ env.year ∨ body.publishedYear = none) →
      postBooks env body s = (⟨201, .book (newBook env body)⟩, s ++ [newBook env body])) := by
  refine ⟨?_, rfl, ?_, ?_⟩
  · simp [acceptsPublishedYear, validatePublishedYear_eq_nil_iff]
  · intro hy
    apply postBooks_rejects
    intro hv
    have h := ((validate_eq_nil_iff _ _).1 hv).2.2
    have h' : validatePublishedYear env.year (some (env.year + 1)) = [] := by
      simpa [newBook, hy] using h
    have := (validatePublishedYear_eq_nil_iff _ _).1 h'
    omega
  · intro ht ha hf hn hy
    apply postBooks_of_valid env body s _ hf hn
    refine (validate_eq_nil_iff _ _).2 ⟨ht, ha, ?_⟩
    rcases hy with ⟨hy, hc⟩ | hy
    · have : (newBook env body).publishedYear = some env.year := hy
      rw [this]
      exact (validatePublishedYear_eq_nil_iff _ _).2 ⟨hc, le_refl _⟩
    · have : (newBook env body).publishedYear = none := hy
      rw [this]
      rfl

/-- Witness of C1 in the year 2026: a Book published in 2026 is created. -/
theorem publishedYear_accepted_iff_in_range_witness :
    postBooks ⟨2026, 7, none⟩ ⟨some "Dune", some "Herbert", some 2026, none, none⟩ [] =
      (⟨201, .book ⟨7, some "Dune", some "Herbert", some 2026, [], true⟩⟩,
        [⟨7, some "Dune", some "Herbert", some 2026, [], true⟩]) :=
  (publishedYear_accepted_iff_in_range 2026 ⟨2026, 7, none⟩
    ⟨some "Dune", some "Herbert", some 2026, none, none⟩ []).2.2.2
    (by decide) (by decide) rfl rfl (Or.inl ⟨rfl, by decide⟩)

/-- C2: a create request that lacks `title` or `author`, or gives one of them as the
empty text, fails with a ValidationError: 400 with an error body, no Book returned and
the collection as it was. -/
theorem create_without_title_or_author_rejected (env : Env) (body : Fields) (s : Store)
    (h : body.title = none ∨ body.title = some "" ∨
      body.author = none ∨ body.author = some "") :
    ∃ e es, postBooks env body s =
      (⟨400, .error (MongooseError.validation "Book validation failed" (e :: es)).message⟩,
        s) := by
  have hne : (newBook env body).validate env.year ≠ [] := by
    intro hv
    obtain ⟨ht, ha, -⟩ := (validate_eq_nil_iff _ _).1 hv
    have ht' : checkRequired body.title = true := ht
    have ha' : checkRequired body.author = true := ha
    rcases h with h | h | h | h
    · simp [h, checkRequired] at ht'
    · simp [h, checkRequired] at ht'
    · simp [h, checkRequired] at ha'
    · simp [h, checkRequired] at ha'
  exact postBooks_rejects env body s hne

/-- Witness of C2: a body without `title`. -/
theorem create_without_title_or_author_rejected_witness :
    ∃ e es, postBooks ⟨2026, 7, none⟩ ⟨none, some "Herbert", none, none, none⟩ [] =
      (⟨400, .error (MongooseError.validation "Book validation failed" (e :: es)).message⟩,
        []) :=
  create_without_title_or_author_rejected ⟨2026, 7, none⟩
    ⟨none, some "Herbert", none, none, none⟩ [] (Or.inl rfl)

/-- C10: a successful create stores and returns a Book whose `genres` is the empty
sequence when the body gives none and whose `isAvailable` is true when the body gives
none; values the body gives are carried as given. -/
theorem create_defaults (env : Env) (body : Fields) (s : Store)
    (h : (postBooks env body s).1.status = 201) :
    ∃ b, postBooks env body s = (⟨201, .book b⟩, s ++ [b]) ∧
      (body.genres = none → b.genres = []) ∧
      (body.isAvailable = none → b.isAvailable = true) ∧
      (∀ g, body.genres = some g → b.genres = g) ∧
      (∀ a, body.isAvailable = some a → b.isAvailable = a) := by
  refine ⟨newBook env body, ?_, ?_, ?_, ?_, ?_⟩
  · revert h
    unfold postBooks save
    cases (newBook env body).validate env.year with
    | cons e es => intro h; simp at h
    | nil =>
      cases env.fault with
      | some m => intro h; simp at h
      | none =>
        cases lookup (newBook env body)._id s with
        | some b => intro h; simp at h
        | none => intro _; rfl
  · intro hg; simp [newBook, hg]
  · intro ha; simp [newBook, ha]
  · intro g hg; simp [newBook, hg]
  · intro a ha; simp [newBook, ha]

/-- Witness of C10: a body with neither `genres` nor `isAvailable`. -/
theorem create_defaults_witness :
    ∃ b, postBooks ⟨2026, 7, none⟩ ⟨some "Dune", some "Herbert", some 1965, none, none⟩ [] =
        (⟨201, .book b⟩, [] ++ [b]) ∧
      ((none : Option (List String)) = none → b.genres = []) ∧
      ((none : Option Bool) = none → b.isAvailable = true) ∧
      (∀ g, (none : Option (List String)) = some g → b.genres = g) ∧
      (∀ a, (none : Option Bool) = some a → b.isAvailable = a) :=
  create_defaults ⟨2026, 7, none⟩ ⟨some "Dune", some "Herbert", some 1965, none, none⟩ []
    (by decide)

/-! ## Errors of the handlers -/

/-- C3 fails as stated: the id `abc` is not well formed and `GET /books/abc` answers 400
with the message of the CastError, not the 404 of `Book not found.`. -/
theorem getById_malformed_id_is_not_404 :
    castObjectId "abc" = none ∧
    (getBookById ⟨2026, 0, none⟩ "abc" []).1.status = 400 ∧
    (getBookById ⟨2026, 0, none⟩ "abc" []).1 ≠ notFound := by
  decide

/-- C3 as the handler has it: an id that is not well formed makes `findById` throw a
CastError, which the `catch` of `GET /books/:id` answers with 400 and the message of
the error, the collection untouched; the 404 with `Book not found.` is the answer to a
well-formed id that matches no record. -/
theorem getById_malformed_id_is_400 (env : Env) (id : String) (s : Store) :
    (castObjectId id = none →
      getBookById env id s = (⟨400, .error (MongooseError.cast id).message⟩, s)) ∧
    (∀ oid, castObjectId id = some oid → env.fault = none → lookup oid s = none →
      getBookById env id s = (⟨404, .message "Book not found."⟩, s)) := by
  constructor
  · intro h
    simp [getBookById, findById, h]
  · intro oid h hf hl
    simp [getBookById, findById, h, hf, hl, notFound]

/-- Witness of the amended C3 at the id `abc`. -/
theorem getById_malformed_id_is_400_witness :
    getBookById ⟨2026, 0, none⟩ "abc" [] =
      (⟨400, .error (MongooseError.cast "abc").message⟩, []) :=
  (getById_malformed_id_is_400 ⟨2026, 0, none⟩ "abc" []).1 (by decide)

/-- C4 fails as stated: a driver failure on the read path `GET /books/:id` is answered
with 400, and so is one on `GET /books/genre/:genre`; neither answers 500. -/
theorem read_path_failure_is_not_500 :
    castObjectId "000000000000000000000007" = some 7 ∧
    getBookById ⟨2026, 0, some "connection lost"⟩ "000000000000000000000007" [] =
      (⟨400, .error "connection lost"⟩, []) ∧
    (getBookById ⟨2026, 0, some "connection lost"⟩ "000000000000000000000007" []).1.status
      ≠ 500 ∧
    getBooksByGenre ⟨2026, 0, some "connection lost"⟩ "Fantasy" [] =
      (⟨400, .error "connection lost"⟩, []) ∧
    (getBooksByGenre ⟨2026, 0, some "connection lost"⟩ "Fantasy" []).1.status ≠ 500 := by
  decide

/-- C4 as the handlers have it: a driver failure of message `m` is answered with 500
and `m` by `GET /books` only; `GET /books/:id`, `GET /books/genre/:genre`,
`POST /books`, `PUT /books/:id` and `DELETE /books/:id` answer 400 and `m`.  The
collection is left as it was. -/
theorem store_failure_status (env : Env) (m : String) (id : String) (genre : String)
    (body : Fields) (update : UpdateBody) (s : Store) (hf : env.fault = some m) :
    getBooks env s = (⟨500, .error m⟩, s) ∧
    getBooksByGenre env genre s = (⟨400, .error m⟩, s) ∧
    (castObjectId id ≠ none → getBookById env id s = (⟨400, .error m⟩, s)) ∧
    ((newBook env body).validate env.year = [] →
      postBooks env body s = (⟨400, .error m⟩, s)) ∧
    (castObjectId id ≠ none → updateValidators env.year update.fields = [] →
      putBook env id update s = (⟨400, .error m⟩, s)) ∧
    (castObjectId id ≠ none → deleteBook env id s = (⟨400, .error m⟩, s)) := by
  refine ⟨?_, ?_, ?_, ?_, ?_, ?_⟩
  · simp [getBooks, find, hf, MongooseError.message]
  · simp [getBooksByGenre, findByGenre, hf, MongooseError.message]
  · intro hc
    cases h : castObjectId id with
    | none => exact absurd h hc
    | some oid => simp [getBookById, findById, h, hf, MongooseError.message]
  · intro hv
    simp [postBooks, save, hv, hf, MongooseError.message]
  · intro hc hv
    cases h : castObjectId id with
    | none => exact absurd h hc
    | some oid => simp [putBook, findByIdAndUpdate, h, hv, hf, MongooseError.message]
  · intro hc
    cases h : castObjectId id with
    | none => exact absurd h hc
    | some oid => simp [deleteBook, findByIdAndDelete, h, hf, MongooseError.message]

/-- Witness of the amended C4: the six routes with the driver down. -/
theorem store_failure_status_witness :
    getBooks ⟨2026, 7, some "connection lost"⟩ [] = (⟨500, .error "connection lost"⟩, []) ∧
    postBooks ⟨2026, 7, some "connection lost"⟩
      ⟨some "Dune", some "Herbert", some 1965, none, none⟩ [] =
        (⟨400, .error "connection lost"⟩, []) ∧
    deleteBook ⟨2026, 7, some "connection lost"⟩ "000000000000000000000007" [] =
        (⟨400, .error "connection lost"⟩, []) :=
  have h := store_failure_status ⟨2026, 7, some "connection lost"⟩ "connection lost"
    "000000000000000000000007" "Fantasy" ⟨some "Dune", some "Herbert", some 1965, none, none⟩
    ⟨⟨none, none, none, none, some false⟩, none⟩ [] rfl
  ⟨h.1, h.2.2.2.1 (by decide), h.2.2.2.2.2 (by decide)⟩

/-! ## Lookups in the collection -/

theorem hasGenre_iff (genre : String) (b : Book) :
    hasGenre genre b = true ↔ genre ∈ b.genres := by
  simp [hasGenre]

theorem lookup_split (oid : ObjectId) (f : Book → Book) (s : Store) (b : Book)
    (h : lookup oid s = some b) :
    ∃ pre post, s = pre ++ b :: post ∧ b._id = oid ∧ (∀ x ∈ pre, x._id ≠ oid) ∧
      modifyFirst oid f s = pre ++ f b :: post ∧ removeFirst oid s = pre ++ post := by
  induction s with
  | nil => simp [lookup] at h
  | cons a t ih =>
    by_cases ha : a._id = oid
    · have hb : a = b := by simpa [lookup, ha] using h
      subst hb
      exact ⟨[], t, rfl, ha, by simp, by simp [modifyFirst, ha], by simp [removeFirst, ha]⟩
    · have ht : lookup oid t = some b := by simpa [lookup, ha] using h
      obtain ⟨pre, post, hs, hid, hpre, hm, hr⟩ := ih ht
      refine ⟨a :: pre, post, by simp [hs], hid, ?_, ?_, ?_⟩
      · intro x hx
        rcases List.mem_cons.1 hx with hx | hx
        · rw [hx]; exact ha
        · exact hpre x hx
      · simp [modifyFirst, ha, hm]
      · simp [removeFirst, ha, hr]

theorem lookup_eq_none_iff (oid : ObjectId) (s : Store) :
    lookup oid s = none ↔ ∀ x ∈ s, x._id ≠ oid := by
  induction s with
  | nil => simp [lookup]
  | cons a t ih =>
    by_cases ha : a._id = oid
    · simp [lookup, ha]
    · simp [lookup, ha, ih]

theorem lookup_append_new (oid : ObjectId) (s : Store) (b : Book)
    (hn : lookup oid s = none) (hb : b._id = oid) : lookup oid (s ++ [b]) = some b := by
  induction s with
  | nil => simp [lookup, hb]
  | cons a t ih =>
    by_cases ha : a._id = oid
    · simp [lookup, ha] at hn
    · have ht : lookup oid t = none := by simpa [lookup, ha] using hn
      simp [lookup, ha, ih ht]

theorem putBook_cases (env : Env) (id : String) (body : UpdateBody) (s : Store) :
    ((putBook env id body s).1.status ≠ 200 ∧ (putBook env id body s).2 = s) ∨
      ∃ pre b post, castObjectId id = some b._id ∧
        updateValidators env.year body.fields = [] ∧ s = pre ++ b :: post ∧
        (∀ x ∈ pre, x._id ≠ b._id) ∧
        putBook env id body s =
          (⟨200, .book (applyOperators body b)⟩, pre ++ applyOperators body b :: post) := by
  cases hc : castObjectId id with
  | none => exact Or.inl (by simp [putBook, findByIdAndUpdate, hc])
  | some oid =>
    cases hv : updateValidators env.year body.fields with
    | cons e es => exact Or.inl (by simp [putBook, findByIdAndUpdate, hc, hv])
    | nil =>
      cases hf : env.fault with
      | some m => exact Or.inl (by simp [putBook, findByIdAndUpdate, hc, hv, hf])
      | none =>
        cases hx : conflicting body with
        | true => exact Or.inl (by simp [putBook, findByIdAndUpdate, hc, hv, hf, hx])
        | false =>
          cases hl : lookup oid s with
          | none =>
            exact Or.inl (by simp [putBook, findByIdAndUpdate, hc, hv, hf, hx, hl, notFound])
          | some b =>
            obtain ⟨pre, post, hs, hid, hpre, hm, -⟩ :=
              lookup_split oid (applyOperators body) s b hl
            refine Or.inr ⟨pre, b, post, by rw [hid], rfl, hs, ?_, ?_⟩
            · rw [hid]; exact hpre
            · simp [putBook, findByIdAndUpdate, hc, hv, hf, hx, hl, hm]

/-! ## Reads, updates and deletes -/

/-- C5: with the driver up, `GET /books/genre/:genre` answers 200 with the stored Books
whose `genres` has an element equal to the genre, in stored order and nothing else; a
Book is in the answer exactly when it is stored and has the genre; and a Book without
the genre, added to the collection or removed from it, leaves the answer as it was. -/
theorem findByGenre_exact (env : Env) (genre : String) (s : Store)
    (hf : env.fault = none) :
    getBooksByGenre env genre s = (⟨200, .books (s.filter (hasGenre genre))⟩, s) ∧
    (∀ b, b ∈ s.filter (hasGenre genre) ↔ b ∈ s ∧ genre ∈ b.genres) ∧
    (∀ pre post b, genre ∉ b.genres → s = pre ++ post →
      (getBooksByGenre env genre (pre ++ b :: post)).1 = (getBooksByGenre env genre s).1) ∧
    (∀ pre post b, genre ∉ b.genres → s = pre ++ b :: post →
      (getBooksByGenre env genre (pre ++ post)).1 = (getBooksByGenre env genre s).1) := by
  have key : ∀ pre post b, genre ∉ b.genres →
      (pre ++ b :: post).filter (hasGenre genre) = (pre ++ post).filter (hasGenre genre) := by
    intro pre post b hb
    have : hasGenre genre b = false := by
      cases h : hasGenre genre b with
      | false => rfl
      | true => exact absurd ((hasGenre_iff _ _).1 h) hb
    simp [List.filter_append, List.filter_cons, this]
  refine ⟨?_, ?_, ?_, ?_⟩
  · simp [getBooksByGenre, findByGenre, hf]
  · intro b
    simp [List.mem_filter, hasGenre_iff]
  · intro pre post b hb hs
    subst hs
    simp [getBooksByGenre, findByGenre, hf, key pre post b hb]
  · intro pre post b hb hs
    subst hs
    simp [getBooksByGenre, findByGenre, hf, key pre post b hb]

/-- Witness of C5: two Fantasy books and one that is not. -/
theorem findByGenre_exact_witness :
    getBooksByGenre ⟨2026, 0, none⟩ "Fantasy"
      [⟨1, some "A", some "X", none, ["Fantasy"], true⟩,
       ⟨2, some "B", some "Y", none, ["Crime"], true⟩,
       ⟨3, some "C", some "Z", none, ["Epic", "Fantasy"], false⟩] =
      (⟨200, .books [⟨1, some "A", some "X", none, ["Fantasy"], true⟩,
         ⟨3, some "C", some "Z", none, ["Epic", "Fantasy"], false⟩]⟩,
       [⟨1, some "A", some "X", none, ["Fantasy"], true⟩,
        ⟨2, some "B", some "Y", none, ["Crime"], true⟩,
        ⟨3, some "C", some "Z", none, ["Epic", "Fantasy"], false⟩]) :=
  (findByGenre_exact ⟨2026, 0, none⟩ "Fantasy"
    [⟨1, some "A", some "X", none, ["Fantasy"], true⟩,
     ⟨2, some "B", some "Y", none, ["Crime"], true⟩,
     ⟨3, some "C", some "Z", none, ["Epic", "Fantasy"], false⟩] rfl).1

theorem lookup_of_mem_nodup (s : Store) (b : Book) (hu : (s.map Book._id).Nodup)
    (hb : b ∈ s) : lookup b._id s = some b := by
  induction s with
  | nil => simp at hb
  | cons a t ih =>
    have hu' : (∀ x ∈ t, x._id ≠ a._id) ∧ (t.map Book._id).Nodup := by
      simpa [List.nodup_cons] using hu
    rcases List.mem_cons.1 hb with hb | hb
    · subst hb
      simp [lookup]
    · have hne : a._id ≠ b._id := fun h => hu'.1 b hb h.symm
      simp [lookup, hne, ih hu'.2 hb]

/-- C6: a successful `PUT /books/:id` whose body is made of schema fields returns the
stored Book of that id with the fields of the body in place of the old ones and every
other field, and the id, as before; with only `isAvailable` in the body, `title`,
`author` and `genres` are those of before.  The collection keeps every other Book, in
place and unchanged. -/
theorem update_replaces_only_given_fields (env : Env) (id : String) (body : Fields)
    (s : Store) (h : (putBook env id ⟨body, none⟩ s).1.status = 200) :
    ∃ pre b post b', s = pre ++ b :: post ∧ castObjectId id = some b._id ∧
      (∀ x ∈ pre, x._id ≠ b._id) ∧
      putBook env id ⟨body, none⟩ s = (⟨200, .book b'⟩, pre ++ b' :: post) ∧
      b'._id = b._id ∧
      (∀ t, body.title = some t → b'.title = some t) ∧
      (body.title = none → b'.title = b.title) ∧
      (∀ a, body.author = some a → b'.author = some a) ∧
      (body.author = none → b'.author = b.author) ∧
      (∀ y, body.publishedYear = some y → b'.publishedYear = some y) ∧
      (body.publishedYear = none → b'.publishedYear = b.publishedYear) ∧
      (∀ g, body.genres = some g → b'.genres = g) ∧
      (body.genres = none → b'.genres = b.genres) ∧
      (∀ v, body.isAvailable = some v → b'.isAvailable = v) ∧
      (body.isAvailable = none → b'.isAvailable = b.isAvailable) := by
  rcases putBook_cases env id ⟨body, none⟩ s with h1 | ⟨pre, b, post, hc, -, hs, hpre, h1⟩
  · exact absurd h h1.1
  · have hb' : applyOperators ⟨body, none⟩ b = applyUpdate body b := rfl
    rw [hb'] at h1
    refine ⟨pre, b, post, applyUpdate body b, hs, hc, hpre, h1, rfl,
      ?_, ?_, ?_, ?_, ?_, ?_, ?_, ?_, ?_, ?_⟩
    all_goals intros; simp_all [applyUpdate]

/-- Witness of C6: only `isAvailable` is given; `title`, `author` and `genres` stay. -/
theorem update_replaces_only_given_fields_witness :
    ∃ pre b post b',
      [(⟨7, some "Dune", some "Herbert", some 1965, ["SciFi"], true⟩ : Book)] =
        pre ++ b :: post ∧
      putBook ⟨2026, 0, none⟩ "000000000000000000000007"
        ⟨⟨none, none, none, none, some false⟩, none⟩
        [⟨7, some "Dune", some "Herbert", some 1965, ["SciFi"], true⟩] =
        (⟨200, .book b'⟩, pre ++ b' :: post) ∧
      b'.title = b.title ∧ b'.author = b.author ∧ b'.genres = b.genres ∧
      b'.isAvailable = false := by
  obtain ⟨pre, b, post, b', hs, -, -, hput, -, -, ht, -, ha, -, -, -, hg, hv, -⟩ :=
    update_replaces_only_given_fields ⟨2026, 0, none⟩ "000000000000000000000007"
      ⟨none, none, none, none, some false⟩
      [⟨7, some "Dune", some "Herbert", some 1965, ["SciFi"], true⟩] (by decide)
  exact ⟨pre, b, post, b', hs, hput, ht rfl, ha rfl, hg rfl, hv false rfl⟩

/-- C7: for the id of a stored Book (ids being unique in the collection, the driver
up), `DELETE /books/:id` answers 200 and removes the record: the collection afterwards
holds exactly the Books of other ids; `GET /books/:id` then answers 404 and a second
`DELETE /books/:id` answers 404, both leaving the collection as it is. -/
theorem delete_twice_200_then_404 (env env' env'' : Env) (id : String) (b : Book)
    (s : Store) (hu : (s.map Book._id).Nodup) (hb : b ∈ s)
    (hc : castObjectId id = some b._id) (hf : env.fault = none) (hf' : env'.fault = none)
    (hf'' : env''.fault = none) :
    ∃ s', deleteBook env id s =
        (⟨200, .message ("Book '" ++ b.title.getD "undefined" ++
          "' deleted successfully.")⟩, s') ∧
      (∀ x, x ∈ s' ↔ x ∈ s ∧ x._id ≠ b._id) ∧
      getBookById env' id s' = (⟨404, .message "Book not found."⟩, s') ∧
      deleteBook env'' id s' = (⟨404, .message "Book not found."⟩, s') := by
  have hl := lookup_of_mem_nodup s b hu hb
  obtain ⟨pre, post, hs, -, hpre, -, hr⟩ := lookup_split b._id (fun x => x) s b hl
  have hpost : ∀ x ∈ post, x._id ≠ b._id := by
    intro x hx
    have hu' : ((pre ++ b :: post).map Book._id).Nodup := hs ▸ hu
    simp only [List.map_append, List.map_cons] at hu'
    have h2 := (List.nodup_cons.1 (List.nodup_append.1 hu').2.1).1
    intro hxb
    exact h2 (List.mem_map.2 ⟨x, hx, hxb⟩)
  have hnone : lookup b._id (pre ++ post) = none := by
    rw [lookup_eq_none_iff]
    intro x hx
    rcases List.mem_append.1 hx with hx | hx
    · exact hpre x hx
    · exact hpost x hx
  refine ⟨pre ++ post, ?_, ?_, ?_, ?_⟩
  · simp [deleteBook, findByIdAndDelete, hc, hf, hl, hr]
  · intro x
    rw [hs]
    constructor
    · intro hx
      rcases List.mem_append.1 hx with hx' | hx'
      · exact ⟨by simp [hx'], hpre x hx'⟩
      · exact ⟨by simp [hx'], hpost x hx'⟩
    · rintro ⟨hx, hne⟩
      rcases List.mem_append.1 hx with hx' | hx'
      · simp [hx']
      · rcases List.mem_cons.1 hx' with hx'' | hx''
        · rw [hx''] at hne; exact absurd rfl hne
        · simp [hx'']
  · simp [getBookById, findById, hc, hf', hnone, notFound]
  · simp [deleteBook, findByIdAndDelete, hc, hf'', hnone, notFound]

/-- Witness of C7: deleting the Book of id 7 from a collection of two. -/
theorem delete_twice_200_then_404_witness :
    ∃ s', deleteBook ⟨2026, 0, none⟩ "000000000000000000000007"
        [⟨7, some "Dune", some "Herbert", some 1965, [], true⟩,
         ⟨8, some "Emma", some "Austen", none, [], true⟩] =
        (⟨200, .message ("Book '" ++ (some "Dune").getD "undefined" ++
          "' deleted successfully.")⟩, s') ∧
      (∀ x, x ∈ s' ↔ x ∈ [(⟨7, some "Dune", some "Herbert", some 1965, [], true⟩ : Book),
         ⟨8, some "Emma", some "Austen", none, [], true⟩] ∧ x._id ≠ 7) ∧
      getBookById ⟨2027, 0, none⟩ "000000000000000000000007" s' =
        (⟨404, .message "Book not found."⟩, s') ∧
      deleteBook ⟨2027, 1, none⟩ "000000000000000000000007" s' =
        (⟨404, .message "Book not found."⟩, s') :=
  delete_twice_200_then_404 ⟨2026, 0, none⟩ ⟨2027, 0, none⟩ ⟨2027, 1, none⟩
    "000000000000000000000007" ⟨7, some "Dune", some "Herbert", some 1965, [], true⟩
    [⟨7, some "Dune", some "Herbert", some 1965, [], true⟩,
     ⟨8, some "Emma", some "Austen", none, [], true⟩]
    (by decide) (by decide) (by decide) rfl rfl rfl

/-- C8: for fields that pass validation (the driver up, the generated id not in the
collection yet), `POST /books` answers 201 with a Book that carries the generated id
and the fields of the body and appends it to the collection; `GET /books/:id` with that
id then answers 200 with that same Book. -/
theorem create_then_getById (env env' : Env) (body : Fields) (s : Store) (id : String)
    (ht : checkRequired body.title = true) (ha : checkRequired body.author = true)
    (hy : acceptsPublishedYear env.year body.publishedYear = true)
    (hf : env.fault = none) (hn : lookup env.newId s = none)
    (hf' : env'.fault = none) (hid : castObjectId id = some env.newId) :
    ∃ b, postBooks env body s = (⟨201, .book b⟩, s ++ [b]) ∧ b._id = env.newId ∧
      b.title = body.title ∧ b.author = body.author ∧
      b.publishedYear = body.publishedYear ∧
      b.genres = body.genres.getD [] ∧ b.isAvailable = body.isAvailable.getD true ∧
      getBookById env' id (s ++ [b]) = (⟨200, .book b⟩, s ++ [b]) := by
  have hv : (newBook env body).validate env.year = [] := by
    refine (validate_eq_nil_iff _ _).2 ⟨ht, ha, ?_⟩
    simpa [acceptsPublishedYear] using hy
  refine ⟨newBook env body, postBooks_of_valid env body s hv hf hn, rfl, rfl, rfl, rfl, rfl,
    rfl, ?_⟩
  have hl := lookup_append_new env.newId s (newBook env body) hn rfl
  simp [getBookById, findById, hid, hf', hl]

/-- Witness of C8: POST of Dune by Herbert, 1965, then GET of the generated id. -/
theorem create_then_getById_witness :
    ∃ b, postBooks ⟨2026, 7, none⟩ ⟨some "Dune", some "Herbert", some 1965, none, none⟩ [] =
        (⟨201, .book b⟩, [] ++ [b]) ∧ b._id = 7 ∧
      b.title = some "Dune" ∧ b.author = some "Herbert" ∧
      b.publishedYear = some 1965 ∧
      b.genres = (none : Option (List String)).getD [] ∧
      b.isAvailable = (none : Option Bool).getD true ∧
      getBookById ⟨2026, 8, none⟩ "000000000000000000000007" ([] ++ [b]) =
        (⟨200, .book b⟩, [] ++ [b]) :=
  create_then_getById ⟨2026, 7, none⟩ ⟨2026, 8, none⟩
    ⟨some "Dune", some "Herbert", some 1965, none, none⟩ [] "000000000000000000000007"
    (by decide) (by decide) (by decide) rfl rfl rfl (by decide)

/-! ## Invariants of the collection -/

theorem postBooks_store (env : Env) (body : Fields) (s : Store) :
    (postBooks env body s).2 = s ∨
      ((newBook env body).validate env.year = [] ∧ lookup env.newId s = none ∧
        (postBooks env body s).2 = s ++ [newBook env body]) := by
  unfold postBooks save
  cases hv : (newBook env body).validate env.year with
  | cons e es => exact Or.inl rfl
  | nil =>
    cases hf : env.fault with
    | some m => exact Or.inl rfl
    | none =>
      cases hl : lookup (newBook env body)._id s with
      | some b => exact Or.inl rfl
      | none => exact Or.inr ⟨rfl, hl, rfl⟩

theorem deleteBook_store (env : Env) (id : String) (s : Store) :
    (deleteBook env id s).2 = s ∨
      ∃ pre b post, castObjectId id = some b._id ∧ s = pre ++ b :: post ∧
        (deleteBook env id s).2 = pre ++ post := by
  cases hc : castObjectId id with
  | none => exact Or.inl (by simp [deleteBook, findByIdAndDelete, hc])
  | some oid =>
    cases hf : env.fault with
    | some m => exact Or.inl (by simp [deleteBook, findByIdAndDelete, hc, hf])
    | none =>
      cases hl : lookup oid s with
      | none => exact Or.inl (by simp [deleteBook, findByIdAndDelete, hc, hf, hl])
      | some b =>
        obtain ⟨pre, post, hs, hid, -, -, hr⟩ := lookup_split oid (fun x => x) s b hl
        exact Or.inr ⟨pre, b, post, by rw [hid], hs,
          by simp [deleteBook, findByIdAndDelete, hc, hf, hl, hr]⟩

theorem updateValidators_eq_nil_iff (c : Int) (u : Fields) :
    updateValidators c u = [] ↔
      (∀ t, u.title = some t → t ≠ "") ∧ (∀ a, u.author = some a → a ≠ "") ∧
        ∀ y, u.publishedYear = some y → 1900 ≤ y ∧ y ≤ c := by
  unfold updateValidators
  rcases u with ⟨t, a, y, g, v⟩
  cases t <;> cases a <;> cases y <;>
    simp [validateRequired_eq_nil_iff, checkRequired, validatePublishedYear_eq_nil_iff] <;>
    simp [validatePublishedYear]

theorem WellKept.mono {h : List Event} {b : Book} (hb : WellKept h b) (h' : List Event) :
    WellKept (h ++ h') b := by
  obtain ⟨ht, ha, hy⟩ := hb
  refine ⟨ht, ha, fun y hby => ?_⟩
  obtain ⟨h1, e, he, hs, hle⟩ := hy y hby
  exact ⟨h1, e, List.mem_append_left _ he, hs, hle⟩

theorem wellKept_newBook (h : List Event) (env : Env) (body : Fields)
    (hv : (newBook env body).validate env.year = []) :
    WellKept (h ++ [⟨env, .create body⟩]) (newBook env body) := by
  obtain ⟨ht, ha, hy⟩ := (validate_eq_nil_iff _ _).1 hv
  refine ⟨(checkRequired_iff _).1 ht, (checkRequired_iff _).1 ha, fun y hby => ?_⟩
  rw [hby] at hy
  obtain ⟨h1, h2⟩ := (validatePublishedYear_eq_nil_iff _ _).1 hy
  exact ⟨h1, ⟨env, .create body⟩, by simp, ⟨rfl, hby⟩, h2⟩

theorem applyOperators_fieldsOnly (body : UpdateBody) (b : Book) (h : body.inc = none) :
    applyOperators body b = applyUpdate body.fields b := by
  simp [applyOperators, applyInc, h]

theorem wellKept_applyUpdate (h : List Event) (env : Env) (id : String) (body : UpdateBody)
    (b : Book) (hb : WellKept h b) (hc : castObjectId id = some b._id)
    (hv : updateValidators env.year body.fields = []) :
    WellKept (h ++ [⟨env, .update id body⟩]) (applyUpdate body.fields b) := by
  obtain ⟨hvt, hva, hvy⟩ := (updateValidators_eq_nil_iff _ _).1 hv
  obtain ⟨ht, ha, hy⟩ := hb.mono [⟨env, .update id body⟩]
  refine ⟨?_, ?_, ?_⟩
  · cases hbt : body.fields.title with
    | none => simpa [applyUpdate, hbt] using ht
    | some t => exact ⟨t, by simp [applyUpdate, hbt], hvt t hbt⟩
  · cases hba : body.fields.author with
    | none => simpa [applyUpdate, hba] using ha
    | some a => exact ⟨a, by simp [applyUpdate, hba], hva a hba⟩
  · intro y hby
    cases hbp : body.fields.publishedYear with
    | none =>
      have : b.publishedYear = some y := by simpa [applyUpdate, hbp] using hby
      exact hy y this
    | some y' =>
      have hyy : y' = y := by simpa [applyUpdate, hbp] using hby
      subst hyy
      obtain ⟨h1, h2⟩ := hvy y' hbp
      exact ⟨h1, ⟨env, .update id body⟩, by simp, ⟨hc, hbp⟩, h2⟩

theorem step_wellKept (h : List Event) (e : Event) (s : Store)
    (he : e.fieldsOnly = true) (hs : ∀ b ∈ s, WellKept h b) :
    ∀ b ∈ (step e s).2, WellKept (h ++ [e]) b := by
  obtain ⟨env, req⟩ := e
  cases req with
  | create body =>
    intro b hb
    rcases postBooks_store env body s with h1 | ⟨hv, -, h1⟩
    · exact (hs b (by simpa [step, h1] using hb)).mono _
    · have hb' : b ∈ s ++ [newBook env body] := by simpa [step, h1] using hb
      rcases List.mem_append.1 hb' with hb' | hb'
      · exact (hs b hb').mono _
      · rw [List.mem_singleton.1 hb']
        exact wellKept_newBook h env body hv
  | update id body =>
    intro b hb
    have hinc : body.inc = none := by simpa [Event.fieldsOnly] using he
    rcases putBook_cases env id body s with h1 | ⟨pre, b0, post, hc, hv, hsplit, -, h1⟩
    · exact (hs b (by simpa [step, h1.2] using hb)).mono _
    · rw [applyOperators_fieldsOnly body b0 hinc] at h1
      have hb' : b ∈ pre ++ applyUpdate body.fields b0 :: post := by
        simpa [step, h1] using hb
      rcases List.mem_append.1 hb' with hb' | hb'
      · exact (hs b (by simp [hsplit, hb'])).mono _
      · rcases List.mem_cons.1 hb' with hb' | hb'
        · rw [hb']
          exact wellKept_applyUpdate h env id body b0 (hs b0 (by simp [hsplit])) hc hv
        · exact (hs b (by simp [hsplit, hb'])).mono _
  | delete id =>
    intro b hb
    rcases deleteBook_store env id s with h1 | ⟨pre, b0, post, -, hsplit, h1⟩
    · exact (hs b (by simpa [step, h1] using hb)).mono _
    · have hb' : b ∈ pre ++ post := by simpa [step, h1] using hb
      rcases List.mem_append.1 hb' with hb' | hb'
      · exact (hs b (by simp [hsplit, hb'])).mono _
      · exact (hs b (by simp [hsplit, hb'])).mono _

theorem run_wellKept (es : List Event) :
    ∀ (h : List Event) (s : Store), (∀ e ∈ es, e.fieldsOnly = true) →
      (∀ b ∈ s, WellKept h b) → ∀ b ∈ run es s, WellKept (h ++ es) b := by
  induction es with
  | nil => intro h s _ hs b hb; simpa [run] using hs b hb
  | cons e es ih =>
    intro h s hes hs b hb
    have he : e.fieldsOnly = true := hes e (by simp)
    have hes' : ∀ x ∈ es, x.fieldsOnly = true := fun x hx => hes x (by simp [hx])
    have := ih (h ++ [e]) (step e s).2 hes' (step_wellKept h e s he hs) b hb
    simpa using this

theorem applyOperators_id (body : UpdateBody) (b : Book) :
    (applyOperators body b)._id = b._id := by
  cases h : body.inc <;> simp [applyOperators, applyInc, applyUpdate, h]

theorem step_ids_nodup (e : Event) (s : Store) (hs : (s.map Book._id).Nodup) :
    ((step e s).2.map Book._id).Nodup := by
  obtain ⟨env, req⟩ := e
  cases req with
  | create body =>
    rcases postBooks_store env body s with h1 | ⟨-, hn, h1⟩
    · simpa [step, h1] using hs
    · have hnew : ∀ x ∈ s, x._id ≠ env.newId := (lookup_eq_none_iff _ _).1 hn
      have : ((s ++ [newBook env body]).map Book._id).Nodup := by
        rw [List.map_append, List.nodup_append]
        refine ⟨hs, by simp, ?_⟩
        intro a ha hb
        obtain ⟨x, hx, rfl⟩ := List.mem_map.1 ha
        have : x._id = env.newId := by simpa [newBook] using hb
        exact hnew x hx this
      simpa [step, h1] using this
  | update id body =>
    rcases putBook_cases env id body s with h1 | ⟨pre, b0, post, -, -, hsplit, -, h1⟩
    · simpa [step, h1.2] using hs
    · have : ((pre ++ applyOperators body b0 :: post).map Book._id).Nodup := by
        simpa [hsplit, applyOperators_id] using hs
      simpa [step, h1] using this
  | delete id =>
    rcases deleteBook_store env id s with h1 | ⟨pre, b0, post, -, hsplit, h1⟩
    · simpa [step, h1] using hs
    · have hsub : List.Sublist ((pre ++ post).map Book._id) (s.map Book._id) := by
        rw [hsplit]
        exact List.Sublist.map _ (List.Sublist.append_left (List.sublist_cons_self b0 post) pre)
      have := hs.sublist hsub
      simpa [step, h1] using this

/-- Ids stay unique: the unique index on `_id` refuses a second document of an id. -/
theorem run_ids_nodup (es : List Event) :
    ∀ s : Store, (s.map Book._id).Nodup → ((run es s).map Book._id).Nodup := by
  induction es with
  | nil => intro s hs; simpa [run] using hs
  | cons e es ih => intro s hs; exact ih _ (step_ids_nodup e s hs)

/-- C9 fails as stated: Dune of 1965 is created in 2026; the update request of body
`$inc: { publishedYear: 1000 }`, also in 2026, is not validated, is answered 200 and
leaves a stored Book of `publishedYear` 2965, beyond the year of the write. -/
theorem inc_update_escapes_validation :
    step ⟨⟨2026, 8, none⟩, .update "000000000000000000000007"
        ⟨⟨none, none, none, none, none⟩, some 1000⟩⟩
      (run [⟨⟨2026, 7, none⟩,
        .create ⟨some "Dune", some "Herbert", some 1965, none, none⟩⟩] []) =
      (⟨200, .book ⟨7, some "Dune", some "Herbert", some 2965, [], true⟩⟩,
        [⟨7, some "Dune", some "Herbert", some 2965, [], true⟩]) ∧
    run [⟨⟨2026, 7, none⟩, .create ⟨some "Dune", some "Herbert", some 1965, none, none⟩⟩,
         ⟨⟨2026, 8, none⟩, .update "000000000000000000000007"
            ⟨⟨none, none, none, none, none⟩, some 1000⟩⟩] [] =
      [⟨7, some "Dune", some "Herbert", some 2965, [], true⟩] ∧
    ¬ SatisfiesConstraints 2026 ⟨7, some "Dune", some "Herbert", some 2965, [], true⟩ := by
  refine ⟨by decide, by decide, ?_⟩
  intro h
  have := (h.2.2 2965 rfl).2
  omega

/-- C9 as the code has it: from the empty collection, after any sequence of create,
update and delete requests whose update bodies are made of schema fields only (no
update operator), every stored Book has `title` and `author` present and not empty and
a `publishedYear` that, if set, is at least 1900 and was written to that record by a
request of the sequence at a calendar year it does not exceed.  With the clock not
running backwards up to now, every stored Book satisfies the constraints of the data
model at the year of now, and an update of such a body whose resulting document would
violate one is answered with 400 and a ValidationError and leaves the collection as it
was. -/
theorem stored_books_satisfy_constraints (es : List Event) (env : Env)
    (hfields : ∀ e ∈ es, e.fieldsOnly = true)
    (hclock : (es.map (fun e => e.env.year) ++ [env.year]).Pairwise (fun a b => a ≤ b)) :
    (∀ b ∈ run es [],
      (∃ t, b.title = some t ∧ t ≠ "") ∧ (∃ a, b.author = some a ∧ a ≠ "") ∧
      ∀ y, b.publishedYear = some y →
        1900 ≤ y ∧ ∃ e ∈ es, e.setsYear b._id y ∧ y ≤ e.env.year) ∧
    (∀ b ∈ run es [], SatisfiesConstraints env.year b) ∧
    (∀ id body b, b ∈ run es [] → castObjectId id = some b._id →
      ¬ SatisfiesConstraints env.year (applyUpdate body b) →
      ∃ e errs, putBook env id ⟨body, none⟩ (run es []) =
        (⟨400, .error (MongooseError.validation "Validation failed" (e :: errs)).message⟩,
          run es [])) := by
  have hinv : ∀ b ∈ run es [], WellKept es b := by
    intro b hb
    have := run_wellKept es [] [] hfields (by simp) b hb
    simpa using this
  have hnow : ∀ e ∈ es, e.env.year ≤ env.year := by
    intro e he
    have h := (List.pairwise_append.1 hclock).2.2
    exact h e.env.year (List.mem_map.2 ⟨e, he, rfl⟩) env.year (by simp)
  have hsat : ∀ b ∈ run es [], SatisfiesConstraints env.year b := by
    intro b hb
    obtain ⟨ht, ha, hy⟩ := hinv b hb
    refine ⟨ht, ha, fun y hby => ?_⟩
    obtain ⟨h1, e, he, -, hle⟩ := hy y hby
    exact ⟨h1, le_trans hle (hnow e he)⟩
  refine ⟨hinv, hsat, ?_⟩
  intro id body b hb hc hviol
  have hne : updateValidators env.year body ≠ [] := by
    intro hv
    apply hviol
    obtain ⟨hvt, hva, hvy⟩ := (updateValidators_eq_nil_iff _ _).1 hv
    obtain ⟨ht, ha, hy⟩ := hsat b hb
    refine ⟨?_, ?_, ?_⟩
    · cases hbt : body.title with
      | none => simpa [applyUpdate, hbt] using ht
      | some t => exact ⟨t, by simp [applyUpdate, hbt], hvt t hbt⟩
    · cases hba : body.author with
      | none => simpa [applyUpdate, hba] using ha
      | some a => exact ⟨a, by simp [applyUpdate, hba], hva a hba⟩
    · intro y hby
      cases hbp : body.publishedYear with
      | none => exact hy y (by simpa [applyUpdate, hbp] using hby)
      | some y' =>
        have hyy : y' = y := by simpa [applyUpdate, hbp] using hby
        subst hyy
        exact hvy y' hbp
  cases hv : updateValidators env.year body with
  | nil => exact absurd hv hne
  | cons e errs =>
    exact ⟨e, errs, by simp [putBook, findByIdAndUpdate, hc, hv]⟩

/-- Witness of the amended C9: Dune is created in 2026 and its `isAvailable` updated in
2027.  The Book stored after the two requests satisfies the constraints in 2027, and
the update that would set its `publishedYear` to 2030 is answered with 400 and a
ValidationError and leaves the collection as it was. -/
theorem stored_books_satisfy_constraints_witness :
    (⟨7, some "Dune", some "Herbert", some 1965, [], false⟩ ∈
        run [⟨⟨2026, 7, none⟩,
              .create ⟨some "Dune", some "Herbert", some 1965, none, none⟩⟩,
             ⟨⟨2027, 9, none⟩, .update "000000000000000000000007"
                ⟨⟨none, none, none, none, some false⟩, none⟩⟩] [] ∧
      SatisfiesConstraints 2027 ⟨7, some "Dune", some "Herbert", some 1965, [], false⟩) ∧
    ∃ e errs, putBook ⟨2027, 10, none⟩ "000000000000000000000007"
        ⟨⟨none, none, some 2030, none, none⟩, none⟩
        (run [⟨⟨2026, 7, none⟩,
              .create ⟨some "Dune", some "Herbert", some 1965, none, none⟩⟩,
             ⟨⟨2027, 9, none⟩, .update "000000000000000000000007"
                ⟨⟨none, none, none, none, some false⟩, none⟩⟩] []) =
      (⟨400, .error (MongooseError.validation "Validation failed" (e :: errs)).message⟩,
        run [⟨⟨2026, 7, none⟩,
              .create ⟨some "Dune", some "Herbert", some 1965, none, none⟩⟩,
             ⟨⟨2027, 9, none⟩, .update "000000000000000000000007"
                ⟨⟨none, none, none, none, some false⟩, none⟩⟩] []) :=
  have h := stored_books_satisfy_constraints
    [⟨⟨2026, 7, none⟩, .create ⟨some "Dune", some "Herbert", some 1965, none, none⟩⟩,
     ⟨⟨2027, 9, none⟩, .update "000000000000000000000007"
        ⟨⟨none, none, none, none, some false⟩, none⟩⟩]
    ⟨2027, 10, none⟩ (by decide) (by decide)
  ⟨⟨by decide, h.2.1 ⟨7, some "Dune", some "Herbert", some 1965, [], false⟩ (by decide)⟩,
    h.2.2 "000000000000000000000007" ⟨none, none, some 2030, none, none⟩
      ⟨7, some "Dune", some "Herbert", some 1965, [], false⟩ (by decide) (by decide)
      (fun hsat => absurd (hsat.2.2 2030 rfl).2 (by decide))⟩

end BookService
